import Mathlib

/-!
# Shallow embedding of the student-record normalization pipeline

This file embeds the transform stage of the ETL pipeline
(`src/etl/etl.py`, class `DataTransformer`) in Lean 4 and proves the
frozen claims about it.

Modelling conventions:
* A pandas `DataFrame` of string cells is a `DF`: a list of headers and
  a list of rows, each row a list of `Value` cells positionally aligned
  with the headers.  Both extraction paths (`extract_from_google_sheets`
  and `extract_from_csv` with `dtype=str` / `fillna('')`) deliver pure
  string cells, so raw cells are always `Value.str`.
* Python `float(...)` is modelled by `parsePyFloat`, exact rational
  parsing of decimal literals (sign, digits, optional fraction, optional
  exponent).  The special literals `inf`/`nan`/underscored numerals are
  outside the modelled grammar and parse to `none`.
* Python `round(x, 2)` is modelled exactly on rationals with round-half-
  to-even (`roundTo2`); `int(x)` on a float is truncation toward zero
  (`ratTruncToInt`).
* `datetime.strptime`/`strftime` for the five fixed formats is modelled
  by `parseDateFmt`/`fmtISO`; the emitted canonical form is zero-padded
  `YYYY-MM-DD`.
* Error/event dictionaries appended to `self.validation_errors` and
  `self.transformation_log` become the structures `VErr` and `TEvent`.
  Message strings that Python renders from a float value are rendered
  from the exact rational instead; no claim inspects those characters.
-/

set_option autoImplicit false

unseal Rat.mul Rat.add Rat.sub Rat.inv

namespace ETL

/-- A cell of the modelled DataFrame.  Raw cells are strings; validators
replace them with typed values (`int` for year_level, `rat` for gpa) or
`null` (Python `None`). -/
inductive Value where
  | str (s : String)
  | int (n : Int)
  | rat (q : ℚ)
  | null
deriving DecidableEq, Repr

/-- The string content of a cell, as handed to the per-field cleaners
(cells are raw strings at that point in the pipeline). -/
def Value.asStr : Value → String
  | .str s => s
  | _ => ""

/-- One entry of `self.validation_errors`: the dict
`{'field': ..., 'value': ..., 'error': ...}`. -/
structure VErr where
  field : String
  value : String
  error : String
deriving DecidableEq, Repr

/-- One entry of `self.transformation_log`: either the dedup dict
`{'action': 'DUPLICATE_REMOVED', 'student_id': ..., 'reason': ...}` or
the department dict
`{'action': 'DEPARTMENT_NORMALIZED', 'original': ..., 'normalized': ...}`. -/
inductive TEvent where
  | duplicateRemoved (student_id : String)
  | departmentNormalized (original : String) (normalized : String)
deriving DecidableEq, Repr

/-! ## String primitives

Python's `str.strip`, `str.lower` and single-character `str.split` are
modelled structurally on the character list so that concrete inputs
evaluate inside the kernel. -/

/-- Whitespace as stripped by Python `str.strip()` (ASCII fragment). -/
def pyWS (c : Char) : Bool :=
  c == ' ' || c == '\t' || c == '\n' || c == '\r'

/-- Python `s.strip()`. -/
def pyStrip (s : String) : String :=
  String.mk (((s.toList.dropWhile pyWS).reverse.dropWhile pyWS).reverse)

/-- Python `s.lower()` (ASCII fragment). -/
def pyLower (s : String) : String :=
  String.mk (s.toList.map Char.toLower)

/-- Split a character list at every occurrence of `sep`; mirrors
Python `s.split(sep)` and `String.splitOn` for one-character
separators. -/
def splitOnChar (sep : Char) : List Char → List (List Char)
  | [] => [[]]
  | c :: t =>
    if c = sep then [] :: splitOnChar sep t
    else
      match splitOnChar sep t with
      | [] => [[c]]
      | h :: r => (c :: h) :: r

/-- Re-join split components with `sep` between them. -/
def joinSep (sep : Char) : List (List Char) → List Char
  | [] => []
  | [x] => x
  | x :: r => x ++ sep :: joinSep sep r

/-! ## Numeric parsing: the model of Python `float` / `int` / `round` -/

/-- Numeric value of a list of decimal digit characters. -/
def natOfDigits (cs : List Char) : Nat :=
  cs.foldl (fun a c => a * 10 + (c.toNat - 48)) 0

/-- Parse the mantissa part of a Python float literal: `digits`,
`digits.digits`, `digits.`, or `.digits`. -/
def parseMantissa (cs : List Char) : Option ℚ :=
  match cs.span (fun c => c != '.') with
  | (ip, []) =>
    if !ip.isEmpty && ip.all Char.isDigit then some (natOfDigits ip : ℚ) else none
  | (ip, _ :: fp) =>
    if fp.all (fun c => c != '.') && ip.all Char.isDigit && fp.all Char.isDigit
        && (!ip.isEmpty || !fp.isEmpty) then
      some ((natOfDigits ip : ℚ) + (natOfDigits fp : ℚ) / (10 : ℚ) ^ fp.length)
    else none

/-- Parse the exponent part after `e`/`E`: optional sign, then digits. -/
def parseExpPart (cs : List Char) : Option Int :=
  let p : Int × List Char :=
    match cs with
    | '+' :: t => (1, t)
    | '-' :: t => (-1, t)
    | t => (1, t)
  if !p.2.isEmpty && p.2.all Char.isDigit then some (p.1 * natOfDigits p.2) else none

/-- Model of Python `float(s)` restricted to finite decimal literals:
surrounding whitespace is ignored, then an optional sign, a mantissa and
an optional exponent.  `inf`/`nan` spellings and `_` digit separators
are outside the modelled grammar. -/
def parsePyFloat (s : String) : Option ℚ :=
  let t := (pyStrip s).toList
  let p : ℚ × List Char :=
    match t with
    | '+' :: r => (1, r)
    | '-' :: r => (-1, r)
    | r => (1, r)
  match p.2.span (fun c => c != 'e' && c != 'E') with
  | (mant, []) => (parseMantissa mant).map (p.1 * ·)
  | (mant, _ :: ex) =>
    match parseMantissa mant, parseExpPart ex with
    | some m, some e =>
      some (p.1 * (if 0 ≤ e then m * (10 : ℚ) ^ e.toNat else m / (10 : ℚ) ^ (-e).toNat))
    | _, _ => none

/-- Model of Python `int(x)` on a float value: truncation toward zero.
`Int.div` is T-division, which truncates toward zero. -/
def ratTruncToInt (q : ℚ) : Int :=
  Int.tdiv q.num (q.den : Int)

/-- Floor of a rational as an integer (`Int.fdiv` is F-division). -/
def ratFloor (q : ℚ) : Int :=
  Int.fdiv q.num (q.den : Int)

/-- Round a rational to the nearest integer, ties to even — the tie
rule of Python 3 `round`. -/
def roundHalfEven (x : ℚ) : Int :=
  let f := ratFloor x
  let r := x - (f : ℚ)
  if r < 1 / 2 then f
  else if 1 / 2 < r then f + 1
  else if Int.emod f 2 = 0 then f else f + 1

/-- Model of Python `round(x, 2)` on the exact rational value. -/
def roundTo2 (q : ℚ) : ℚ :=
  (roundHalfEven (q * 100) : ℚ) / 100

/-! ## Configuration tables (module constants of `etl.py`) -/

/-- `DEPARTMENT_MAPPING` from `etl.py`. -/
def DEPARTMENT_MAPPING : List (String × String) :=
  [("cs", "Computer Science"),
   ("compsci", "Computer Science"),
   ("computer science", "Computer Science"),
   ("math", "Mathematics"),
   ("mathematics", "Mathematics"),
   ("physics", "Physics"),
   ("business", "Business Administration"),
   ("business administration", "Business Administration"),
   ("ee", "Electrical Engineering"),
   ("electrical engineering", "Electrical Engineering")]

/-- `STATUS_MAPPING` from `etl.py`. -/
def STATUS_MAPPING : List (String × String) :=
  [("active", "active"),
   ("inactive", "inactive"),
   ("graduated", "graduated"),
   ("suspended", "suspended")]

/-! ## Field validators (`DataTransformer._clean_* / _map_*`) -/

/-- Character class of Python regex `\w` (ASCII fragment). -/
def wordChar (c : Char) : Bool :=
  c.isAlphanum || c == '_'

/-- Character class `[\w\.-]` of the email regex. -/
def emailChar (c : Char) : Bool :=
  wordChar c || c == '.' || c == '-'

/-- Full-string match of the email regex `^[\w\.-]+@[\w\.-]+\.\w+$`:
exactly one `@`; a nonempty local part over `[\w.-]`; a domain that
splits at its last dot into a nonempty `[\w.-]` part and a nonempty
`\w` top-level part. -/
def emailMatches (e : String) : Bool :=
  match splitOnChar '@' e.toList with
  | [lp, dom] =>
    let ps := splitOnChar '.' dom
    let tld := ps.getLastD []
    let pre := joinSep '.' ps.dropLast
    !lp.isEmpty && lp.all emailChar &&
      decide (2 ≤ ps.length) &&
      !tld.isEmpty && tld.all wordChar &&
      !pre.isEmpty && pre.all emailChar
  | _ => false

/-- `DataTransformer._clean_email`. -/
def _clean_email (email : String) : Option String × List VErr :=
  if email = "" ∨ email = "nan" then (none, [])
  else
    let e := pyStrip (pyLower email)
    if emailMatches e then (some e, [])
    else (none, [⟨"email", e, "Invalid email format"⟩])

/-- `DataTransformer._map_department`. -/
def _map_department (dept : String) : Option String × List TEvent :=
  if dept = "" ∨ dept = "nan" then (none, [])
  else
    match DEPARTMENT_MAPPING.lookup (pyStrip (pyLower dept)) with
    | some mapped =>
      if mapped ≠ dept then (some mapped, [.departmentNormalized dept mapped])
      else (some mapped, [])
    | none => (some dept, [])

/-- `DataTransformer._map_status`. -/
def _map_status (status : String) : String :=
  if status = "" ∨ status = "nan" then "active"
  else
    match STATUS_MAPPING.lookup (pyStrip (pyLower status)) with
    | some v => v
    | none => "active"

/-- The message `f'Year {year_int} out of range (1-4)'`. -/
def yearMsg (n : Int) : String :=
  "Year " ++ toString n ++ " out of range (1-4)"

/-- `DataTransformer._clean_year`: parse via `int(float(year))`, keep
values in `[1,4]`, clamp out-of-range values to the nearest bound while
recording a `ValidationError`, and silently drop unparsable input. -/
def _clean_year (year : String) : Option Int × List VErr :=
  if year = "" ∨ year = "nan" then (none, [])
  else
    match parsePyFloat year with
    | none => (none, [])
    | some q =>
      let yi := ratTruncToInt q
      if 1 ≤ yi ∧ yi ≤ 4 then (some yi, [])
      else (some (max 1 (min 4 yi)), [⟨"year_level", year, yearMsg yi⟩])

/-- The message `f'GPA {gpa_float} out of range (0-4)'`.  Python renders
the float value; the model renders the exact rational. -/
def gpaMsg (q : ℚ) : String :=
  "GPA " ++ toString q ++ " out of range (0-4)"

/-- `DataTransformer._clean_gpa`: parse via `float(gpa)`, round in-range
values to 2 decimal places, reject out-of-range values to `None` with a
`ValidationError`, and silently drop unparsable input. -/
def _clean_gpa (gpa : String) : Option ℚ × List VErr :=
  if gpa = "" ∨ gpa = "nan" ∨ gpa = "##" then (none, [])
  else
    match parsePyFloat gpa with
    | none => (none, [])
    | some q =>
      if 0 ≤ q ∧ q ≤ 4 then (some (roundTo2 q), [])
      else (none, [⟨"gpa", gpa, gpaMsg q⟩])

/-- `DataTransformer._clean_phone`: strip non-digits, format 10- and
7-digit numbers, return anything else untouched. -/
def _clean_phone (phone : String) : Option String :=
  if phone = "" ∨ phone = "nan" then none
  else
    let digits := phone.toList.filter Char.isDigit
    if digits.length = 10 then
      some (String.mk (digits.take 3) ++ "-" ++ String.mk ((digits.drop 3).take 3)
            ++ "-" ++ String.mk (digits.drop 6))
    else if digits.length = 7 then
      some (String.mk (digits.take 3) ++ "-" ++ String.mk (digits.drop 3))
    else some phone

/-! ## Date parsing (`DataTransformer._clean_date`) -/

/-- Component order of one `strptime` format string. -/
inductive DateOrder where
  | ymd
  | mdy
  | dmy
deriving DecidableEq, Repr

/-- The `date_formats` list of `_clean_date`, in source order:
`%Y-%m-%d`, `%m/%d/%Y`, `%m-%d-%Y`, `%d/%m/%Y`, `%d-%m-%Y`. -/
def dateFormats : List (DateOrder × Char) :=
  [(.ymd, '-'), (.mdy, '/'), (.mdy, '-'), (.dmy, '/'), (.dmy, '-')]

/-- Gregorian leap year, as used by `datetime`. -/
def isLeap (y : Nat) : Bool :=
  y % 4 = 0 && (y % 100 ≠ 0 || y % 400 = 0)

/-- Days in a month, as enforced by the `datetime` constructor. -/
def daysInMonth (y m : Nat) : Nat :=
  if m = 2 then (if isLeap y then 29 else 28)
  else if m = 4 ∨ m = 6 ∨ m = 9 ∨ m = 11 then 30
  else 31

/-- A 1-or-2-digit `strptime` component with its admissible value range
(`%m`: 1–12, `%d`: 1–31 before calendar validation). -/
def parseComp2 (cs : List Char) (lo hi : Nat) : Option Nat :=
  if !cs.isEmpty && decide (cs.length ≤ 2) && cs.all Char.isDigit then
    let v := natOfDigits cs
    if lo ≤ v ∧ v ≤ hi then some v else none
  else none

/-- The `%Y` component: exactly four digits; `datetime` then requires
the year to be at least `MINYEAR = 1`. -/
def parseYear4 (cs : List Char) : Option Nat :=
  if cs.length = 4 && cs.all Char.isDigit then
    let v := natOfDigits cs
    if 1 ≤ v then some v else none
  else none

/-- `datetime.strptime(t, fmt)` for one of the five fixed formats: the
string must split at the format's separator into exactly three
components that parse in the format's order and name a real calendar
date. -/
def parseDateFmt (t : String) (fmt : DateOrder × Char) : Option (Nat × Nat × Nat) :=
  match splitOnChar fmt.2 t.toList with
  | [a, b, c] =>
    match fmt.1 with
    | .ymd => do
      let y ← parseYear4 a
      let m ← parseComp2 b 1 12
      let d ← parseComp2 c 1 31
      if d ≤ daysInMonth y m then some (y, m, d) else none
    | .mdy => do
      let m ← parseComp2 a 1 12
      let d ← parseComp2 b 1 31
      let y ← parseYear4 c
      if d ≤ daysInMonth y m then some (y, m, d) else none
    | .dmy => do
      let d ← parseComp2 a 1 31
      let m ← parseComp2 b 1 12
      let y ← parseYear4 c
      if d ≤ daysInMonth y m then some (y, m, d) else none
  | _ => none

/-- The decimal digit character for `n` (expects `n < 10`). -/
def digitChar (n : Nat) : Char :=
  Char.ofNat (48 + n)

/-- `parsed.strftime('%Y-%m-%d')`: the canonical zero-padded
`YYYY-MM-DD` rendering (years parsed here always have four digits). -/
def fmtISO (ymd : Nat × Nat × Nat) : String :=
  String.mk
    [digitChar (ymd.1 / 1000 % 10), digitChar (ymd.1 / 100 % 10),
     digitChar (ymd.1 / 10 % 10), digitChar (ymd.1 % 10), '-',
     digitChar (ymd.2.1 / 10 % 10), digitChar (ymd.2.1 % 10), '-',
     digitChar (ymd.2.2 / 10 % 10), digitChar (ymd.2.2 % 10)]

/-- The `for fmt in date_formats: try ... except ValueError: continue`
loop: first successful parse wins. -/
def tryFormats (t : String) : List (DateOrder × Char) → Option (Nat × Nat × Nat)
  | [] => none
  | f :: fs =>
    match parseDateFmt t f with
    | some ymd => some ymd
    | none => tryFormats t fs

/-- `DataTransformer._clean_date`. -/
def _clean_date (date_str : String) : Option String × List VErr :=
  if date_str = "" ∨ date_str = "nan" then (none, [])
  else
    match tryFormats (pyStrip date_str) dateFormats with
    | some ymd => (some (fmtISO ymd), [])
    | none => (none, [⟨"date_of_birth", date_str, "Unable to parse date"⟩])

/-! ## The DataFrame model and pipeline stages -/

/-- The modelled pandas DataFrame: a header list and positionally
aligned rows.  Extraction pads every row to the header length, so rows
and headers always have equal length in runs of the real program. -/
structure DF where
  headers : List String
  rows : List (List Value)
deriving DecidableEq, Repr

/-- The cell of a row under column index `i`. -/
def cellAt (row : List Value) (i : Nat) : Value :=
  row.getD i (.str "")

/-- First-occurrence-wins partition underlying
`df.duplicated(subset=[k], keep='first')` /
`df.drop_duplicates(subset=[k], keep='first')`: returns the retained
rows and the dropped rows, each in original order.  `seen` is the set
of key values already encountered. -/
def dedupByKey {α κ : Type} [DecidableEq κ] (key : α → κ) (seen : List κ) :
    List α → List α × List α
  | [] => ([], [])
  | r :: rs =>
    if key r ∈ seen then
      ((dedupByKey key seen rs).1, r :: (dedupByKey key seen rs).2)
    else
      (r :: (dedupByKey key (key r :: seen) rs).1, (dedupByKey key (key r :: seen) rs).2)

/-- `DataTransformer._remove_duplicates`: when the `'Student ID'`
column exists, drop every row whose identifier value was already seen
and log one `DUPLICATE_REMOVED` event per dropped row (in row order);
otherwise pass the frame through untouched. -/
def _remove_duplicates (df : DF) : DF × List TEvent :=
  if "Student ID" ∈ df.headers then
    let i := df.headers.indexOf "Student ID"
    let p := dedupByKey (fun r => cellAt r i) [] df.rows
    (⟨df.headers, p.1⟩, p.2.map (fun r => .duplicateRemoved (cellAt r i).asStr))
  else (df, [])

/-- The `column_mapping` dict of `_normalize_columns`. -/
def column_mapping : List (String × String) :=
  [("Student ID", "student_id"),
   ("Email", "email"),
   ("First Name", "first_name"),
   ("Last Name", "last_name"),
   ("Year", "year_level"),
   ("Department", "department"),
   ("Status", "status"),
   ("Phone", "phone"),
   ("DOB", "date_of_birth"),
   ("GPA", "gpa")]

/-- `str.strip()` applied to a string cell, as in
`df[col].astype(str).str.strip()` (cells are strings at this stage). -/
def trimValue : Value → Value
  | .str s => .str (pyStrip s)
  | v => v

/-- `DataTransformer._normalize_columns`: rename headers through
`column_mapping` (headers absent from the mapping keep their name) and
strip whitespace from every cell. -/
def _normalize_columns (df : DF) : DF :=
  ⟨df.headers.map (fun h => (column_mapping.lookup h).getD h),
   df.rows.map (fun r => r.map trimValue)⟩

/-- A per-field cleaner as used by `_validate_and_clean`: cell value in,
new cell value plus recorded errors and events out. -/
def Cleaner : Type :=
  String → Value × List VErr × List TEvent

/-- Lift an optional string result to a cell. -/
def optStr : Option String → Value
  | some s => .str s
  | none => .null

/-- `_clean_email` as a cleaner. -/
def cEmail : Cleaner := fun s =>
  (optStr (_clean_email s).1, (_clean_email s).2, [])

/-- `_map_department` as a cleaner. -/
def cDept : Cleaner := fun s =>
  (optStr (_map_department s).1, [], (_map_department s).2)

/-- `_map_status` as a cleaner (always yields a string). -/
def cStatus : Cleaner := fun s =>
  (.str (_map_status s), [], [])

/-- `_clean_year` as a cleaner. -/
def cYear : Cleaner := fun s =>
  (match (_clean_year s).1 with
   | some n => .int n
   | none => .null, (_clean_year s).2, [])

/-- `_clean_phone` as a cleaner. -/
def cPhone : Cleaner := fun s =>
  (optStr (_clean_phone s), [], [])

/-- `_clean_date` as a cleaner. -/
def cDate : Cleaner := fun s =>
  (optStr (_clean_date s).1, (_clean_date s).2, [])

/-- `_clean_gpa` as a cleaner. -/
def cGpa : Cleaner := fun s =>
  (match (_clean_gpa s).1 with
   | some q => .rat q
   | none => .null, (_clean_gpa s).2, [])

/-- `df[col] = df[col].apply(fn)` guarded by `if col in df.columns`:
apply the cleaner to the named column cell of every row, collecting
errors and events in row order. -/
def applyClean (df : DF) (col : String) (f : Cleaner) : DF × List VErr × List TEvent :=
  if col ∈ df.headers then
    let i := df.headers.indexOf col
    let cleaned := df.rows.map (fun r =>
      let v := f (cellAt r i).asStr
      (r.set i v.1, v.2.1, v.2.2))
    (⟨df.headers, cleaned.map (·.1)⟩,
     (cleaned.map (·.2.1)).flatten,
     (cleaned.map (·.2.2)).flatten)
  else (df, [], [])

/-- The column/cleaner pairs of `_validate_and_clean`, in source
order. -/
def cleanerList : List (String × Cleaner) :=
  [("email", cEmail),
   ("department", cDept),
   ("status", cStatus),
   ("year_level", cYear),
   ("phone", cPhone),
   ("date_of_birth", cDate),
   ("gpa", cGpa)]

/-- One step of `_validate_and_clean`: clean one column and append its
errors and events. -/
def vcStep (acc : DF × List VErr × List TEvent) (p : String × Cleaner) :
    DF × List VErr × List TEvent :=
  let r := applyClean acc.1 p.1 p.2
  (r.1, acc.2.1 ++ r.2.1, acc.2.2 ++ r.2.2)

/-- `DataTransformer._validate_and_clean`. -/
def _validate_and_clean (df : DF) : DF × List VErr × List TEvent :=
  cleanerList.foldl vcStep (df, [], [])

/-- The `schema_columns` list of `_map_to_schema`. -/
def schema_columns : List String :=
  ["student_id", "email", "first_name", "last_name",
   "year_level", "department", "status", "phone", "date_of_birth"]

/-- `DataTransformer._map_to_schema`: keep the schema columns that
exist, in schema order (`df[available_columns]`). -/
def _map_to_schema (df : DF) : DF :=
  let avail := schema_columns.filter (· ∈ df.headers)
  ⟨avail, df.rows.map (fun r => avail.map (fun c => cellAt r (df.headers.indexOf c)))⟩

/-- The mutable accumulators set up in `DataTransformer.__init__` and
never reset: `self.validation_errors` and `self.transformation_log`. -/
structure TState where
  validation_errors : List VErr
  transformation_log : List TEvent
deriving DecidableEq, Repr

/-- The report dict built at the end of `DataTransformer.transform`. -/
structure Report where
  original_count : Nat
  final_count : Nat
  duplicates_removed : Nat
  validation_errors : List VErr
  transformations : List TEvent
deriving DecidableEq, Repr

/-- `DataTransformer.transform`: dedup, normalize, validate, project;
the report's error/event lists are the instance accumulators after this
run (prior contents included, since `__init__` is the only reset). -/
def transform (st : TState) (df : DF) : DF × Report × TState :=
  let original_count := df.rows.length
  let dedup := _remove_duplicates df
  let df2 := _normalize_columns dedup.1
  let vc := _validate_and_clean df2
  let df4 := _map_to_schema vc.1
  let st' : TState :=
    ⟨st.validation_errors ++ vc.2.1,
     st.transformation_log ++ dedup.2 ++ vc.2.2⟩
  (df4,
   ⟨original_count, df4.rows.length, original_count - df4.rows.length,
    st'.validation_errors, st'.transformation_log⟩,
   st')

/-- The dedup key of a row: its cell under the `'Student ID'` column
(`subset=['Student ID']`). -/
def sidKey (df : DF) : List Value → Value :=
  fun r => cellAt r (df.headers.indexOf "Student ID")

/-- Recognizer for the canonical date form `YYYY-MM-DD`: exactly ten
characters, digits in the year/month/day positions, dashes between. -/
def isCanonicalDate (d : String) : Bool :=
  match d.toList with
  | [y1, y2, y3, y4, s1, m1, m2, s2, d1, d2] =>
    y1.isDigit && y2.isDigit && y3.isDigit && y4.isDigit && s1 == '-' &&
      m1.isDigit && m2.isDigit && s2 == '-' && d1.isDigit && d2.isDigit
  | _ => false

/-- Concrete batch: two rows sharing identifier `"2"` (spec scenario 1). -/
def dfDupPair : DF :=
  ⟨["Student ID"], [[.str "2"], [.str "2"]]⟩

/-- Concrete batch: two distinct rows whose identifier is empty. -/
def dfEmptyIdPair : DF :=
  ⟨["Student ID", "Email"],
   [[.str "", .str "a@b.com"], [.str "", .str "c@d.com"]]⟩

/-- Concrete batch: an identifier column plus a GPA column holding a
valid value. -/
def dfWithGpa : DF :=
  ⟨["Student ID", "GPA"], [[.str "1", .str "3.9"]]⟩

/-- Concrete batch whose single header is already a canonical field
name and therefore absent from the rename lookup. -/
def dfRawCanonical : DF :=
  ⟨["student_id"], [[.str "S1"]]⟩

/-! ## Lemmas about the duplicate resolver -/

theorem dedupByKey_fst_sublist {α κ : Type} [DecidableEq κ] (key : α → κ) :
    ∀ (l : List α) (seen : List κ), (dedupByKey key seen l).1.Sublist l
  | [], _ => by simp [dedupByKey]
  | r :: rs, seen => by
    rw [dedupByKey]
    by_cases hs : key r ∈ seen
    · simp only [if_pos hs]
      exact (dedupByKey_fst_sublist key rs seen).cons r
    · simp only [if_neg hs]
      exact (dedupByKey_fst_sublist key rs (key r :: seen)).cons₂ r

theorem dedupByKey_snd_sublist {α κ : Type} [DecidableEq κ] (key : α → κ) :
    ∀ (l : List α) (seen : List κ), (dedupByKey key seen l).2.Sublist l
  | [], _ => by simp [dedupByKey]
  | r :: rs, seen => by
    rw [dedupByKey]
    by_cases hs : key r ∈ seen
    · simp only [if_pos hs]
      exact (dedupByKey_snd_sublist key rs seen).cons₂ r
    · simp only [if_neg hs]
      exact (dedupByKey_snd_sublist key rs (key r :: seen)).cons r

theorem dedupByKey_length {α κ : Type} [DecidableEq κ] (key : α → κ) :
    ∀ (l : List α) (seen : List κ),
      (dedupByKey key seen l).1.length + (dedupByKey key seen l).2.length = l.length
  | [], _ => by simp [dedupByKey]
  | r :: rs, seen => by
    rw [dedupByKey]
    by_cases hs : key r ∈ seen
    · have := dedupByKey_length key rs seen
      simp only [if_pos hs, List.length_cons]
      omega
    · have := dedupByKey_length key rs (key r :: seen)
      simp only [if_neg hs, List.length_cons]
      omega

theorem dedupByKey_fst_filter {α κ : Type} [DecidableEq κ] (key : α → κ) (v : κ) :
    ∀ (l : List α) (seen : List κ),
      (dedupByKey key seen l).1.filter (fun r => decide (key r = v)) =
        if v ∈ seen then [] else (l.filter (fun r => decide (key r = v))).take 1
  | [], seen => by simp [dedupByKey]
  | r :: rs, seen => by
    rw [dedupByKey]
    by_cases hs : key r ∈ seen
    · rw [if_pos hs, dedupByKey_fst_filter key v rs seen]
      by_cases hv : v ∈ seen
      · rw [if_pos hv, if_pos hv]
      · have hrv : ¬ key r = v := fun e => hv (by rw [← e]; exact hs)
        rw [if_neg hv, if_neg hv, List.filter_cons]
        simp [hrv]
    · rw [if_neg hs, List.filter_cons, dedupByKey_fst_filter key v rs (key r :: seen),
        List.filter_cons]
      by_cases hrv : key r = v
      · have hv : v ∉ seen := fun e => hs (by rw [hrv]; exact e)
        have hm : v ∈ key r :: seen := by rw [hrv]; exact List.mem_cons_self v seen
        simp [hrv, hv, hm]
      · have hvr : ¬ v = key r := fun e => hrv e.symm
        simp [hrv, hvr, List.mem_cons]

theorem dedupByKey_snd_filter {α κ : Type} [DecidableEq κ] (key : α → κ) (v : κ) :
    ∀ (l : List α) (seen : List κ),
      (dedupByKey key seen l).2.filter (fun r => decide (key r = v)) =
        if v ∈ seen then l.filter (fun r => decide (key r = v))
        else (l.filter (fun r => decide (key r = v))).drop 1
  | [], seen => by simp [dedupByKey]
  | r :: rs, seen => by
    rw [dedupByKey]
    by_cases hs : key r ∈ seen
    · rw [if_pos hs, List.filter_cons, dedupByKey_snd_filter key v rs seen]
      by_cases hrv : key r = v
      · have hv : v ∈ seen := by rw [← hrv]; exact hs
        simp [hv, hrv, List.filter_cons]
      · have hvr : ¬ v = key r := fun e => hrv e.symm
        simp [hrv, hvr, List.filter_cons]
    · rw [if_neg hs, dedupByKey_snd_filter key v rs (key r :: seen)]
      by_cases hrv : key r = v
      · have hv : v ∉ seen := fun e => hs (by rw [hrv]; exact e)
        have hm : v ∈ key r :: seen := by rw [hrv]; exact List.mem_cons_self v seen
        simp [hrv, hv, hm, List.filter_cons]
      · have hvr : ¬ v = key r := fun e => hrv e.symm
        simp [hrv, hvr, List.mem_cons, List.filter_cons]

/-! ## Row-count preservation through the later pipeline stages -/

theorem normalize_columns_rows_length (df : DF) :
    (_normalize_columns df).rows.length = df.rows.length := by
  simp [_normalize_columns]

theorem applyClean_rows_length (df : DF) (col : String) (f : Cleaner) :
    (applyClean df col f).1.rows.length = df.rows.length := by
  rw [applyClean]
  by_cases h : col ∈ df.headers
  · simp [h]
  · simp [h]

theorem vc_foldl_rows_length (cs : List (String × Cleaner)) :
    ∀ (df : DF) (es : List VErr) (ts : List TEvent),
      (cs.foldl vcStep (df, es, ts)).1.rows.length = df.rows.length := by
  induction cs with
  | nil => intro df es ts; rfl
  | cons p cs ih =>
    intro df es ts
    rw [List.foldl_cons, vcStep]
    rw [ih]
    exact applyClean_rows_length df p.1 p.2

theorem validate_and_clean_rows_length (df : DF) :
    (_validate_and_clean df).1.rows.length = df.rows.length :=
  vc_foldl_rows_length cleanerList df [] []

theorem map_to_schema_rows_length (df : DF) :
    (_map_to_schema df).rows.length = df.rows.length := by
  simp [_map_to_schema]

theorem map_to_schema_headers (df : DF) :
    (_map_to_schema df).headers = schema_columns.filter (· ∈ df.headers) :=
  rfl

theorem map_to_schema_rows (df : DF) :
    (_map_to_schema df).rows =
      df.rows.map (fun r =>
        (schema_columns.filter (· ∈ df.headers)).map
          (fun c => cellAt r (df.headers.indexOf c))) :=
  rfl

set_option maxHeartbeats 1000000 in
/-- The output of one `transform` call, with the lets of the definition
spelled out. -/
theorem transform_unfold (st : TState) (df : DF) :
    transform st df =
      (_map_to_schema (_validate_and_clean (_normalize_columns (_remove_duplicates df).1)).1,
       ⟨df.rows.length,
        (_map_to_schema (_validate_and_clean
          (_normalize_columns (_remove_duplicates df).1)).1).rows.length,
        df.rows.length - (_map_to_schema (_validate_and_clean
          (_normalize_columns (_remove_duplicates df).1)).1).rows.length,
        st.validation_errors ++
          (_validate_and_clean (_normalize_columns (_remove_duplicates df).1)).2.1,
        st.transformation_log ++ (_remove_duplicates df).2 ++
          (_validate_and_clean (_normalize_columns (_remove_duplicates df).1)).2.2⟩,
      ⟨st.validation_errors ++
        (_validate_and_clean (_normalize_columns (_remove_duplicates df).1)).2.1,
       st.transformation_log ++ (_remove_duplicates df).2 ++
         (_validate_and_clean (_normalize_columns (_remove_duplicates df).1)).2.2⟩) := by
  unfold transform
  rfl

theorem transform_final_rows_length (st : TState) (df : DF) :
    (transform st df).1.rows.length = (_remove_duplicates df).1.rows.length := by
  show (_map_to_schema (_validate_and_clean
    (_normalize_columns (_remove_duplicates df).1)).1).rows.length = _
  rw [map_to_schema_rows_length, validate_and_clean_rows_length,
    normalize_columns_rows_length]

/-- `_remove_duplicates` in terms of `dedupByKey` when the identifier
column is present. -/
theorem remove_duplicates_unfold (df : DF) (h : "Student ID" ∈ df.headers) :
    _remove_duplicates df =
      (⟨df.headers, (dedupByKey (sidKey df) [] df.rows).1⟩,
       (dedupByKey (sidKey df) [] df.rows).2.map
         (fun r => TEvent.duplicateRemoved (sidKey df r).asStr)) := by
  rw [_remove_duplicates, if_pos h]
  rfl

theorem transform_final_count (st : TState) (df : DF) :
    (transform st df).2.1.final_count = (_remove_duplicates df).1.rows.length := by
  have h := congrArg (fun t => t.2.1.final_count) (transform_unfold st df)
  simp only at h
  rw [h, map_to_schema_rows_length, validate_and_clean_rows_length,
    normalize_columns_rows_length]

/-- C1: with the identifier column present, the Duplicate Resolver keeps
exactly the first row (in original order) for each distinct identifier
value, preserves relative order (the survivors and the dropped rows are
both sublists of the input), logs exactly one `DUPLICATE_REMOVED`
transformation event per dropped row (and contributes nothing to the
validation errors), and the report satisfies
`original_count = final_count + duplicates_removed` with
`duplicates_removed` the number of dropped rows. -/
theorem C1_duplicate_resolver (df : DF) (st : TState) (h : "Student ID" ∈ df.headers) :
    ∃ dropped : List (List Value),
      (_remove_duplicates df).1.rows.Sublist df.rows ∧
      (∀ v : Value,
        (_remove_duplicates df).1.rows.filter (fun r => decide (sidKey df r = v)) =
          (df.rows.filter (fun r => decide (sidKey df r = v))).take 1) ∧
      dropped.Sublist df.rows ∧
      (∀ v : Value,
        dropped.filter (fun r => decide (sidKey df r = v)) =
          (df.rows.filter (fun r => decide (sidKey df r = v))).drop 1) ∧
      (_remove_duplicates df).1.rows.length + dropped.length = df.rows.length ∧
      (_remove_duplicates df).2 =
        dropped.map (fun r => TEvent.duplicateRemoved (sidKey df r).asStr) ∧
      (transform st df).2.1.original_count = df.rows.length ∧
      (transform st df).2.1.final_count = (_remove_duplicates df).1.rows.length ∧
      (transform st df).2.1.duplicates_removed = dropped.length ∧
      (transform st df).2.1.original_count =
        (transform st df).2.1.final_count + (transform st df).2.1.duplicates_removed ∧
      (transform st df).2.1.validation_errors =
        st.validation_errors ++
          (_validate_and_clean (_normalize_columns (_remove_duplicates df).1)).2.1 ∧
      (transform st df).2.1.transformations =
        st.transformation_log ++ (_remove_duplicates df).2 ++
          (_validate_and_clean (_normalize_columns (_remove_duplicates df).1)).2.2 := by
  have hrd := remove_duplicates_unfold df h
  have hkept : (_remove_duplicates df).1.rows = (dedupByKey (sidKey df) [] df.rows).1 := by
    rw [hrd]
  have hlen := dedupByKey_length (sidKey df) df.rows []
  have hsub := dedupByKey_fst_sublist (sidKey df) df.rows []
  have hle : (dedupByKey (sidKey df) [] df.rows).1.length ≤ df.rows.length :=
    hsub.length_le
  have hfinal : (transform st df).2.1.final_count = (_remove_duplicates df).1.rows.length :=
    transform_final_count st df
  have horig : (transform st df).2.1.original_count = df.rows.length := by
    have hx := congrArg (fun t => t.2.1.original_count) (transform_unfold st df)
    simp only at hx
    exact hx
  have hdup : (transform st df).2.1.duplicates_removed =
      df.rows.length - (transform st df).2.1.final_count := by
    have hx := congrArg (fun t => t.2.1.duplicates_removed) (transform_unfold st df)
    have hy := congrArg (fun t => t.2.1.final_count) (transform_unfold st df)
    simp only at hx hy
    rw [hx, hy]
  have herr : (transform st df).2.1.validation_errors =
      st.validation_errors ++
        (_validate_and_clean (_normalize_columns (_remove_duplicates df).1)).2.1 := by
    have hx := congrArg (fun t => t.2.1.validation_errors) (transform_unfold st df)
    simp only at hx
    exact hx
  have htr : (transform st df).2.1.transformations =
      st.transformation_log ++ (_remove_duplicates df).2 ++
        (_validate_and_clean (_normalize_columns (_remove_duplicates df).1)).2.2 := by
    have hx := congrArg (fun t => t.2.1.transformations) (transform_unfold st df)
    simp only at hx
    exact hx
  refine ⟨(dedupByKey (sidKey df) [] df.rows).2, ?_, ?_, ?_, ?_, ?_, ?_, ?_, hfinal,
    ?_, ?_, ?_, ?_⟩
  · rw [hkept]; exact hsub
  · intro v
    rw [hkept]
    have := dedupByKey_fst_filter (sidKey df) v df.rows []
    simpa using this
  · exact dedupByKey_snd_sublist (sidKey df) df.rows []
  · intro v
    have := dedupByKey_snd_filter (sidKey df) v df.rows []
    simpa using this
  · rw [hkept]; exact hlen
  · rw [hrd]
  · exact horig
  · rw [hdup, hfinal, hkept]
    omega
  · rw [horig, hdup, hfinal, hkept]
    omega
  · exact herr
  · exact htr

/-- C1 witness: the batch of spec scenario 1 (two rows with identifier
`"2"`) satisfies the hypothesis and the report arithmetic. -/
theorem C1_witness :
    "Student ID" ∈ dfDupPair.headers ∧
    (transform ⟨[], []⟩ dfDupPair).2.1.original_count =
      (transform ⟨[], []⟩ dfDupPair).2.1.final_count +
        (transform ⟨[], []⟩ dfDupPair).2.1.duplicates_removed := by
  refine ⟨by decide, ?_⟩
  obtain ⟨d, _, _, _, _, _, _, _, _, _, harith, _, _⟩ :=
    C1_duplicate_resolver dfDupPair ⟨[], []⟩ (by decide)
  exact harith

/-- C2 counterexample: two distinct rows whose `'Student ID'` is the
empty string; the resolver treats them as duplicates and drops the
second, with a `DUPLICATE_REMOVED` event — the claim says both rows are
retained. -/
theorem C2_counterexample :
    dfEmptyIdPair.rows.length = 2 ∧
    dfEmptyIdPair.rows.getD 0 [] ≠ dfEmptyIdPair.rows.getD 1 [] ∧
    (_remove_duplicates dfEmptyIdPair).1.rows = [[Value.str "", Value.str "a@b.com"]] ∧
    (_remove_duplicates dfEmptyIdPair).2 = [TEvent.duplicateRemoved ""] := by
  decide

/-- C2 (amended): rows whose identifier value is the empty string are
deduplicated like any other identifier value — only the first
empty-identifier row survives. -/
theorem C2_empty_id_first_wins (df : DF) (h : "Student ID" ∈ df.headers) :
    (_remove_duplicates df).1.rows.filter (fun r => decide (sidKey df r = Value.str "")) =
      (df.rows.filter (fun r => decide (sidKey df r = Value.str ""))).take 1 := by
  rw [remove_duplicates_unfold df h]
  have := dedupByKey_fst_filter (sidKey df) (Value.str "") df.rows []
  simpa using this

/-- C2 witness: the amended statement evaluated on the concrete
empty-identifier batch. -/
theorem C2_witness :
    "Student ID" ∈ dfEmptyIdPair.headers ∧
    (_remove_duplicates dfEmptyIdPair).1.rows.filter
        (fun r => decide (sidKey dfEmptyIdPair r = Value.str "")) =
      (dfEmptyIdPair.rows.filter
        (fun r => decide (sidKey dfEmptyIdPair r = Value.str ""))).take 1 :=
  ⟨by decide, C2_empty_id_first_wins dfEmptyIdPair (by decide)⟩

/-- C3: the year_level validator returns unset on empty/placeholder
input; returns the parsed integer unchanged when it lies in `[1,4]`;
clamps to the nearest bound AND records a `ValidationError` when the
parsed integer is out of range; returns unset with no error on
unparsable input; and every `some` output lies in `[1,4]`. -/
theorem C3_year_level_validator (s : String) :
    (s = "" ∨ s = "nan" → _clean_year s = (none, [])) ∧
    (∀ q : ℚ, ¬(s = "" ∨ s = "nan") → parsePyFloat s = some q →
      (1 ≤ ratTruncToInt q ∧ ratTruncToInt q ≤ 4 →
        _clean_year s = (some (ratTruncToInt q), [])) ∧
      (¬(1 ≤ ratTruncToInt q ∧ ratTruncToInt q ≤ 4) →
        _clean_year s =
          (some (max 1 (min 4 (ratTruncToInt q))),
           [⟨"year_level", s, yearMsg (ratTruncToInt q)⟩]))) ∧
    (¬(s = "" ∨ s = "nan") → parsePyFloat s = none → _clean_year s = (none, [])) ∧
    (∀ n : Int, (_clean_year s).1 = some n → 1 ≤ n ∧ n ≤ 4) := by
  refine ⟨?_, ?_, ?_, ?_⟩
  · intro h0
    rw [_clean_year, if_pos h0]
  · intro q h0 hp
    rw [_clean_year, if_neg h0, hp]
    constructor
    · intro hin
      simp [hin]
    · intro hout
      simp [hout]
  · intro h0 hp
    rw [_clean_year, if_neg h0, hp]
  · intro n hn
    by_cases h0 : s = "" ∨ s = "nan"
    · rw [_clean_year, if_pos h0] at hn
      simp at hn
    · rw [_clean_year, if_neg h0] at hn
      cases hp : parsePyFloat s with
      | none => rw [hp] at hn; simp at hn
      | some q =>
        rw [hp] at hn
        by_cases hin : 1 ≤ ratTruncToInt q ∧ ratTruncToInt q ≤ 4
        · simp [hin] at hn
          omega
        · simp [hin] at hn
          omega

/-- C3 witness: input `"5"` parses to `5`, is out of range, gets
clamped to `4` and logged (spec scenario 3). -/
theorem C3_witness :
    ¬(("5" : String) = "" ∨ ("5" : String) = "nan") ∧
    parsePyFloat "5" = some 5 ∧
    _clean_year "5" = (some 4, [⟨"year_level", "5", "Year 5 out of range (1-4)"⟩]) := by
  refine ⟨by decide, by decide, ?_⟩
  have h := ((C3_year_level_validator "5").2.1 5 (by decide) (by decide)).2 (by decide)
  exact h.trans (by decide)

/-- C4: the GPA validator returns unset on empty/`"nan"`/`"##"` input
with no error; rounds in-range values to 2 decimal places; returns
unset AND records a `ValidationError` for out-of-range values (never
clamps); returns unset with no error on unparsable input; and an error
is recorded iff the value parses and is out of range. -/
theorem C4_gpa_validator (s : String) :
    (s = "" ∨ s = "nan" ∨ s = "##" → _clean_gpa s = (none, [])) ∧
    (∀ q : ℚ, ¬(s = "" ∨ s = "nan" ∨ s = "##") → parsePyFloat s = some q →
      (0 ≤ q ∧ q ≤ 4 → _clean_gpa s = (some (roundTo2 q), [])) ∧
      (¬(0 ≤ q ∧ q ≤ 4) → _clean_gpa s = (none, [⟨"gpa", s, gpaMsg q⟩]))) ∧
    (parsePyFloat s = none → _clean_gpa s = (none, [])) ∧
    ((_clean_gpa s).2 ≠ [] ↔ ∃ q : ℚ, parsePyFloat s = some q ∧ ¬(0 ≤ q ∧ q ≤ 4)) := by
  have hplaceholder : ∀ t : String, t = "" ∨ t = "nan" ∨ t = "##" →
      parsePyFloat t = none := by
    rintro t (h | h | h) <;> rw [h] <;> decide
  refine ⟨?_, ?_, ?_, ?_⟩
  · intro h0
    rw [_clean_gpa, if_pos h0]
  · intro q h0 hp
    rw [_clean_gpa, if_neg h0, hp]
    constructor
    · intro hin
      simp [hin]
    · intro hout
      simp [hout]
  · intro hp
    by_cases h0 : s = "" ∨ s = "nan" ∨ s = "##"
    · rw [_clean_gpa, if_pos h0]
    · rw [_clean_gpa, if_neg h0, hp]
  · constructor
    · intro hne
      by_cases h0 : s = "" ∨ s = "nan" ∨ s = "##"
      · rw [_clean_gpa, if_pos h0] at hne
        simp at hne
      · rw [_clean_gpa, if_neg h0] at hne
        cases hp : parsePyFloat s with
        | none => rw [hp] at hne; simp at hne
        | some q =>
          rw [hp] at hne
          by_cases hin : 0 ≤ q ∧ q ≤ 4
          · simp [hin] at hne
          · exact ⟨q, rfl, hin⟩
    · rintro ⟨q, hp, hout⟩
      have h0 : ¬(s = "" ∨ s = "nan" ∨ s = "##") := by
        intro h0
        rw [hplaceholder s h0] at hp
        exact Option.noConfusion hp
      rw [_clean_gpa, if_neg h0, hp]
      simp [hout]

/-- C4 witness: input `"4.5"` parses to `9/2`, is out of range, and is
rejected to unset with a `ValidationError` (spec scenario 4). -/
theorem C4_witness :
    parsePyFloat "4.5" = some (9 / 2 : ℚ) ∧
    ¬((9 / 2 : ℚ) ≥ 0 ∧ (9 / 2 : ℚ) ≤ 4) ∧
    _clean_gpa "4.5" = (none, [⟨"gpa", "4.5", gpaMsg (9 / 2 : ℚ)⟩]) := by
  refine ⟨by decide, by decide, ?_⟩
  exact ((C4_gpa_validator "4.5").2.1 (9 / 2 : ℚ) (by decide) (by decide)).2 (by decide)

/-! ## Lemmas about the date format loop -/

theorem tryFormats_eq_of_first (t : String) :
    ∀ (fs : List (DateOrder × Char)) (i : Nat) (ymd : Nat × Nat × Nat),
      i < fs.length →
      (∀ j : Nat, j < i → parseDateFmt t (fs.getD j (.ymd, '-')) = none) →
      parseDateFmt t (fs.getD i (.ymd, '-')) = some ymd →
      tryFormats t fs = some ymd := by
  intro fs
  induction fs with
  | nil => intro i ymd hi _ _; exact absurd hi (by simp)
  | cons f fs ih =>
    intro i ymd hi hj hp
    cases i with
    | zero =>
      rw [tryFormats]
      simp only [List.getD_cons_zero] at hp
      rw [hp]
    | succ i =>
      rw [tryFormats]
      have h0 : parseDateFmt t f = none := by
        have := hj 0 (Nat.succ_pos i)
        simpa using this
      rw [h0]
      exact ih i ymd (Nat.lt_of_succ_lt_succ hi)
        (fun j hji => by simpa using hj (j + 1) (Nat.succ_lt_succ hji))
        (by simpa using hp)

theorem tryFormats_eq_none (t : String) :
    ∀ fs : List (DateOrder × Char),
      (∀ f ∈ fs, parseDateFmt t f = none) → tryFormats t fs = none := by
  intro fs
  induction fs with
  | nil => intro _; rfl
  | cons f fs ih =>
    intro h
    rw [tryFormats, h f (List.mem_cons_self f fs)]
    exact ih (fun g hg => h g (List.mem_cons_of_mem f hg))

theorem digitChar_mod_isDigit (n : Nat) : (digitChar (n % 10)).isDigit = true := by
  have hlt : n % 10 < 10 := Nat.mod_lt n (by decide)
  have hall : ∀ k, k < 10 → (digitChar k).isDigit = true := by decide
  exact hall _ hlt

theorem isCanonicalDate_fmtISO (ymd : Nat × Nat × Nat) :
    isCanonicalDate (fmtISO ymd) = true := by
  show isCanonicalDate (String.mk _) = true
  simp [isCanonicalDate, fmtISO, digitChar_mod_isDigit]

/-- C5 counterexample: `"nan"` is a non-empty input that no format
parses, yet the validator returns unset without recording a
`ValidationError` — the claim requires an error for every non-empty
unparsable input. -/
theorem C5_counterexample :
    ("nan" : String) ≠ "" ∧
    (∀ f ∈ dateFormats, parseDateFmt (pyStrip "nan") f = none) ∧
    _clean_date "nan" = (none, []) := by
  refine ⟨by decide, by decide, by decide⟩

/-- C5 (amended): for every non-empty input other than the placeholder
`"nan"`, the formats are tried in the fixed priority order, the first
parse wins and is re-emitted as zero-padded `YYYY-MM-DD`; when no
format parses the result is unset plus a `ValidationError`; every
`some` output matches canonical `YYYY-MM-DD`. -/
theorem C5_date_validator (s : String) (h1 : s ≠ "") (h2 : s ≠ "nan") :
    (∀ (i : Nat) (ymd : Nat × Nat × Nat), i < dateFormats.length →
      (∀ j : Nat, j < i → parseDateFmt (pyStrip s) (dateFormats.getD j (.ymd, '-')) = none) →
      parseDateFmt (pyStrip s) (dateFormats.getD i (.ymd, '-')) = some ymd →
      _clean_date s = (some (fmtISO ymd), [])) ∧
    ((∀ f ∈ dateFormats, parseDateFmt (pyStrip s) f = none) →
      _clean_date s = (none, [⟨"date_of_birth", s, "Unable to parse date"⟩])) ∧
    (∀ (d : String) (es : List VErr), _clean_date s = (some d, es) →
      isCanonicalDate d = true) := by
  have h0 : ¬(s = "" ∨ s = "nan") := by
    rintro (h | h)
    · exact h1 h
    · exact h2 h
  refine ⟨?_, ?_, ?_⟩
  · intro i ymd hi hj hp
    rw [_clean_date, if_neg h0, tryFormats_eq_of_first (pyStrip s) dateFormats i ymd hi hj hp]
  · intro hall
    rw [_clean_date, if_neg h0, tryFormats_eq_none (pyStrip s) dateFormats hall]
  · intro d es hd
    rw [_clean_date, if_neg h0] at hd
    cases ht : tryFormats (pyStrip s) dateFormats with
    | none =>
      rw [ht] at hd
      simp at hd
    | some ymd =>
      rw [ht] at hd
      simp only [Prod.mk.injEq, Option.some.injEq] at hd
      rw [← hd.1]
      exact isCanonicalDate_fmtISO ymd

/-- C5 witness: `"05/15/2003"` fails the ISO format, parses under the
US-slash format (priority position 1), and yields `"2003-05-15"` (spec
scenario 6). -/
theorem C5_witness :
    parseDateFmt (pyStrip "05/15/2003") (dateFormats.getD 0 (.ymd, '-')) = none ∧
    parseDateFmt (pyStrip "05/15/2003") (dateFormats.getD 1 (.ymd, '-')) =
      some (2003, 5, 15) ∧
    _clean_date "05/15/2003" = (some "2003-05-15", []) := by
  refine ⟨by decide, by decide, ?_⟩
  have h := (C5_date_validator "05/15/2003" (by decide) (by decide)).1 1 (2003, 5, 15)
    (by decide)
    (by
      intro j hj
      have hj0 : j = 0 := by omega
      rw [hj0]
      decide)
    (by decide)
  exact h.trans (by decide)

/-- C6 counterexample: `"nan"` is a non-empty input whose digit count
is neither 10 nor 7, yet the validator returns unset (`None`) instead
of the untouched original string required by the claim. -/
theorem C6_counterexample :
    ("nan" : String) ≠ "" ∧
    ("nan".toList.filter Char.isDigit).length ≠ 10 ∧
    ("nan".toList.filter Char.isDigit).length ≠ 7 ∧
    _clean_phone "nan" = none ∧
    _clean_phone "nan" ≠ some "nan" := by
  refine ⟨by decide, by decide, by decide, by decide, by decide⟩

/-- C6 (amended): for every non-empty input other than the placeholder
`"nan"`, stripping non-digits yields: 10 digits → `AAA-BBB-CCCC`,
7 digits → `AAA-BBBB`, any other count → the original input untouched
(and the phone validator never records an error in any case). -/
theorem C6_phone_validator (s : String) (h1 : s ≠ "") (h2 : s ≠ "nan") :
    ((s.toList.filter Char.isDigit).length = 10 →
      _clean_phone s = some (String.mk ((s.toList.filter Char.isDigit).take 3) ++ "-" ++
        String.mk (((s.toList.filter Char.isDigit).drop 3).take 3) ++ "-" ++
        String.mk ((s.toList.filter Char.isDigit).drop 6))) ∧
    ((s.toList.filter Char.isDigit).length = 7 →
      _clean_phone s = some (String.mk ((s.toList.filter Char.isDigit).take 3) ++ "-" ++
        String.mk ((s.toList.filter Char.isDigit).drop 3))) ∧
    ((s.toList.filter Char.isDigit).length ≠ 10 →
      (s.toList.filter Char.isDigit).length ≠ 7 →
      _clean_phone s = some s) := by
  have h0 : ¬(s = "" ∨ s = "nan") := by
    rintro (h | h)
    · exact h1 h
    · exact h2 h
  refine ⟨?_, ?_, ?_⟩
  · intro hlen
    rw [_clean_phone, if_neg h0]
    simp only [String.toList] at hlen
    simp [hlen]
  · intro hlen
    rw [_clean_phone, if_neg h0]
    simp only [String.toList] at hlen
    simp [hlen]
  · intro h10 h7
    rw [_clean_phone, if_neg h0]
    simp only [String.toList] at h10 h7
    simp [h10, h7]

/-- C6 witness: `"(555) 010-1234"` strips to 10 digits and is formatted
`555-010-1234` (spec scenario 5). -/
theorem C6_witness :
    ("(555) 010-1234".toList.filter Char.isDigit).length = 10 ∧
    _clean_phone "(555) 010-1234" = some "555-010-1234" := by
  refine ⟨by decide, ?_⟩
  have h := (C6_phone_validator "(555) 010-1234" (by decide) (by decide)).1 (by decide)
  exact h.trans (by decide)

/-- C7 counterexample: the header `"student_id"` is absent from the
rename lookup, yet it is not dropped — it survives normalization and
the schema projection keeps it, so the output record still carries it. -/
theorem C7_counterexample :
    (∀ p ∈ column_mapping, p.1 ≠ "student_id") ∧
    (_map_to_schema (_normalize_columns dfRawCanonical)).headers = ["student_id"] ∧
    (_map_to_schema (_normalize_columns dfRawCanonical)).rows = [[Value.str "S1"]] := by
  refine ⟨by decide, by decide, by decide⟩

/-- C7 (amended): the normalizer renames every header through the
lookup (headers absent from it keep their name) and trims every cell;
the subsequent schema projection keeps exactly the canonical output
fields that are present; hence a header is dropped iff its (possibly
unrenamed) name is not among the nine canonical output fields — in
particular the canonical `gpa` column from the `GPA` header is dropped,
while a raw header that already equals a canonical field name
survives. -/
theorem C7_column_normalizer (df : DF) :
    ((_normalize_columns df).headers =
      df.headers.map (fun h => (column_mapping.lookup h).getD h)) ∧
    ((_normalize_columns df).rows = df.rows.map (fun r => r.map trimValue)) ∧
    ((_map_to_schema (_normalize_columns df)).headers =
      schema_columns.filter (· ∈ (_normalize_columns df).headers)) ∧
    (∀ h ∈ df.headers, (column_mapping.lookup h).getD h ∉ schema_columns →
      (column_mapping.lookup h).getD h ∉ (_map_to_schema (_normalize_columns df)).headers) := by
  refine ⟨rfl, rfl, rfl, ?_⟩
  intro h _ hns hmem
  rw [_map_to_schema] at hmem
  have := List.mem_filter.mp hmem
  exact hns this.1

/-- C7 witness: the `GPA` header is renamed to `gpa` by the lookup, and
`gpa` is not a canonical output field, so it is dropped from the
output. -/
theorem C7_witness :
    "GPA" ∈ dfWithGpa.headers ∧
    (column_mapping.lookup "GPA").getD "GPA" = "gpa" ∧
    (column_mapping.lookup "GPA").getD "GPA" ∉ schema_columns ∧
    (column_mapping.lookup "GPA").getD "GPA" ∉
      (_map_to_schema (_normalize_columns dfWithGpa)).headers := by
  refine ⟨by decide, by decide, by decide, ?_⟩
  exact (C7_column_normalizer dfWithGpa).2.2.2 "GPA" (by decide) (by decide)

/-- C8: the normalized output and the report counts depend only on the
input batch, not on the transformer's accumulated state — so two runs
of the same batch (fresh instance each time, or any instances) yield
identical normalized sequences and identical counts. -/
theorem C8_transform_deterministic (st1 st2 : TState) (df : DF) :
    (transform st1 df).1 = (transform st2 df).1 ∧
    (transform st1 df).2.1.original_count = (transform st2 df).2.1.original_count ∧
    (transform st1 df).2.1.final_count = (transform st2 df).2.1.final_count ∧
    (transform st1 df).2.1.duplicates_removed = (transform st2 df).2.1.duplicates_removed := by
  have h1 := transform_unfold st1 df
  have h2 := transform_unfold st2 df
  refine ⟨?_, ?_, ?_, ?_⟩
  · have a := congrArg (fun t => t.1) h1
    have b := congrArg (fun t => t.1) h2
    simp only at a b
    rw [a, b]
  · have a := congrArg (fun t => t.2.1.original_count) h1
    have b := congrArg (fun t => t.2.1.original_count) h2
    simp only at a b
    rw [a, b]
  · have a := congrArg (fun t => t.2.1.final_count) h1
    have b := congrArg (fun t => t.2.1.final_count) h2
    simp only at a b
    rw [a, b]
  · have a := congrArg (fun t => t.2.1.duplicates_removed) h1
    have b := congrArg (fun t => t.2.1.duplicates_removed) h2
    simp only at a b
    rw [a, b]

/-- C9: every output record carries only fields from the fixed
projection list, in that order (the output header list is a sublist of
the schema list and rows align with it positionally); in particular no
output ever carries a `gpa` field. -/
theorem C9_no_gpa_in_output (st : TState) (df : DF) :
    (transform st df).1.headers.Sublist schema_columns ∧
    "gpa" ∉ (transform st df).1.headers ∧
    (∀ r ∈ (transform st df).1.rows, r.length = (transform st df).1.headers.length) := by
  have h := congrArg (fun t => t.1) (transform_unfold st df)
  simp only at h
  rw [h, map_to_schema_headers, map_to_schema_rows]
  refine ⟨List.filter_sublist schema_columns, ?_, ?_⟩
  · intro hm
    exact absurd (List.mem_filter.mp hm).1 (by decide)
  · intro r hr
    simp only [List.mem_map] at hr
    obtain ⟨r0, _, hr0⟩ := hr
    rw [← hr0]
    simp

/-- C9 witness: a batch carrying a GPA column with a valid value still
yields a gpa-free output, and its single output row matches the output
header length. -/
theorem C9_witness :
    "GPA" ∈ dfWithGpa.headers ∧
    _clean_gpa "3.9" = (some (39 / 10 : ℚ), []) ∧
    "gpa" ∉ (transform ⟨[], []⟩ dfWithGpa).1.headers ∧
    [Value.str "1"] ∈ (transform ⟨[], []⟩ dfWithGpa).1.rows ∧
    ([Value.str "1"] : List Value).length =
      (transform ⟨[], []⟩ dfWithGpa).1.headers.length := by
  refine ⟨by decide, by decide, (C9_no_gpa_in_output ⟨[], []⟩ dfWithGpa).2.1, by decide, ?_⟩
  exact (C9_no_gpa_in_output ⟨[], []⟩ dfWithGpa).2.2 [Value.str "1"] (by decide)

/-- C10: the error/event accumulators are instance state that is never
reset: a second `transform` call on the same instance produces a report
whose lists are the first call's lists followed by exactly the entries
a fresh run on the second batch would record. -/
theorem C10_accumulators_never_reset (st : TState) (df df' : DF) :
    (transform (transform st df).2.2 df').2.1.validation_errors =
      (transform st df).2.1.validation_errors ++
        (transform ⟨[], []⟩ df').2.1.validation_errors ∧
    (transform (transform st df).2.2 df').2.1.transformations =
      (transform st df).2.1.transformations ++
        (transform ⟨[], []⟩ df').2.1.transformations := by
  have hsecond := transform_unfold (transform st df).2.2 df'
  have hfirst := transform_unfold st df
  have hfresh := transform_unfold (⟨[], []⟩ : TState) df'
  constructor
  · have a := congrArg (fun t => t.2.1.validation_errors) hsecond
    have b := congrArg (fun t => t.2.2.validation_errors) hfirst
    have c := congrArg (fun t => t.2.1.validation_errors) hfirst
    have d := congrArg (fun t => t.2.1.validation_errors) hfresh
    simp only at a b c d
    rw [a, b, c, d]
    simp [List.append_assoc]
  · have a := congrArg (fun t => t.2.1.transformations) hsecond
    have b := congrArg (fun t => t.2.2.transformation_log) hfirst
    have c := congrArg (fun t => t.2.1.transformations) hfirst
    have d := congrArg (fun t => t.2.1.transformations) hfresh
    simp only at a b c d
    rw [a, b, c, d]
    simp [List.append_assoc]

end ETL
